import Mathlib

set_option maxRecDepth 100000

/-!
Shallow embedding of the `reactdomproject` repository: a React demo
(src/App.js, src/context/ThemeContext.jsx, src/components/ThemeToggle.jsx)
plus a scaffolding shell script (src/test.sh).

Conventions of the embedding:
* Theme values are strings, exactly as in the JS source (`'light'` / `'dark'`).
* React's dependency-array semantics for effects is modelled explicitly:
  an effect fires at the mount commit, and at a later commit exactly when its
  dependency list differs from the dependency list of the previous commit.
  Every effect run registers one cleanup; a cleanup executes either right
  before the next run of the same effect or at unmount.
* Verbatim file contents (for the scaffolding script's heredocs and the
  checked-in files they claim to reproduce) are modelled as lists of byte
  values, so that byte-for-byte comparisons are exact.
-/

/-! ### Theme store (App.js lines 12-29, ThemeContext.jsx lines 7-27) -/

/-- The toggle operation of the inline `ThemeProvider` in App.js line 15-17:
`setTheme(prevTheme => (prevTheme === 'light' ? 'dark' : 'light'))`. -/
def toggleTheme (t : String) : String :=
  if t = "light" then "dark" else "light"

/-- The toggle operation of the `ThemeProvider` in context/ThemeContext.jsx
lines 11-14; the state transition passed to `setTheme` is
`prevTheme => (prevTheme === 'light' ? 'dark' : 'light')` (the extra
`console.log` there does not touch the state). -/
def toggleThemeCtx (t : String) : String :=
  if t = "light" then "dark" else "light"

/-- Both providers initialise the mode with `useState('light')`
(App.js line 13, ThemeContext.jsx line 9). -/
def initialTheme : String := "light"

/-- The mode after applying the toggle operation `n` times starting from the
initial mode. -/
def themeAfter : Nat → String
  | 0 => initialTheme
  | n + 1 => toggleTheme (themeAfter n)

/-! ### Counter and document-title effect (App.js lines 87-95, 127) -/

/-- The increment click handler of App.js line 127: `setCount(c => c + 1)`. -/
def incrementHandler (c : Nat) : Nat := c + 1

/-- The count after `k` increment clicks starting from `useState(0)`
(App.js line 88). -/
def countAfter : Nat → Nat
  | 0 => 0
  | k + 1 => incrementHandler (countAfter k)

/-- The document-title side effect of App.js line 93:
`document.title = ` the template string `Count: ... | Theme: ...`. -/
def titleEffect (count : Nat) (theme : String) : String :=
  "Count: " ++ toString count ++ " | Theme: " ++ theme

/-! ### React effect dependency-array semantics

An effect attached to a component is described by the list of dependency
values it records at each commit of the component's lifetime (the head of
the trace is the mount commit).  The effect fires at the mount commit and at
each later commit whose dependency list differs from the previous one. -/

/-- Number of later commits at which an effect fires, given the dependency
value `prev` recorded at the preceding commit and the remaining trace. -/
def countChanges {α : Type} [DecidableEq α] : α → List α → Nat
  | _, [] => 0
  | prev, d :: rest => (if d = prev then 0 else 1) + countChanges d rest

/-- Total number of times an effect fires over a commit trace: once at the
mount commit, plus once for every later commit where its dependencies
changed. -/
def effectRunCount {α : Type} [DecidableEq α] : List α → Nat
  | [] => 0
  | d :: rest => 1 + countChanges d rest

/-- Cleanups that execute during the mounted lifetime: one right before each
re-run of the effect after the first run. -/
def rerunCleanupCount {α : Type} [DecidableEq α] (trace : List α) : Nat :=
  effectRunCount trace - 1

/-- The cleanup of the last run executes at unmount, provided the component
was ever mounted. -/
def unmountCleanupCount {α : Type} [DecidableEq α] (trace : List α) : Nat :=
  if trace.isEmpty then 0 else 1

/-- Total number of cleanup executions across the full mounted lifetime. -/
def releaseCount {α : Type} [DecidableEq α] (trace : List α) : Nat :=
  rerunCleanupCount trace + unmountCleanupCount trace

/-- The dependency array of the interval effect, App.js line 110: `[]`,
irrespective of the component state `(count, theme)` at the commit. -/
def intervalDeps (_s : Nat × String) : List Nat := []

/-- The dependency array of the title effect, App.js line 95:
`[count, theme]`. -/
def titleDeps (s : Nat × String) : Nat × String := s

/-- The dependency array of the Tailwind script-loading effect,
App.js line 216: `[]`. -/
def scriptEffectDeps (_commitIx : Nat) : List Nat := []

/-! ### Layout measurement component `DomChangeTracker` (App.js lines 151-165)

React semantics modelled here, for a single component carrying
`boxRef` (a ref to the tracked box) and `width` (the measured-width state):

* During the render phase the dependency array
  `[boxRef.current?.offsetWidth]` (App.js line 165) is evaluated; at that
  point the DOM has not yet been mutated for this commit, so the read
  returns the box's width from the previous commit (`none` when the ref is
  not attached yet, i.e. on the first render).
* The commit phase then mutates the DOM, giving the box its new rendered
  width and attaching the ref.
* The layout effect fires at the mount commit, and at a later commit exactly
  when the freshly evaluated dependency differs from the one recorded at the
  previous commit.  When it fires it reads `boxRef.current.offsetWidth`
  (now the committed width) and calls `setWidth` with it (App.js
  lines 158-164).
* A `setWidth` inside a layout effect that changes the state value flushes
  another render synchronously before the browser paints; if the value is
  unchanged React bails out and no further render happens. -/

structure TrackerState where
  /-- Whether `boxRef.current` is attached (null before the first commit). -/
  attached : Bool
  /-- The committed rendered pixel width of the tracked box (`offsetWidth`). -/
  domWidth : Nat
  /-- The `width` state of the component, `useState(0)` at App.js line 153. -/
  width : Nat
  /-- The dependency array recorded at the previous commit: `none` when there
  is no previous commit (mount), otherwise the value of
  `boxRef.current?.offsetWidth` evaluated during that commit's render. -/
  prevDeps : Option (Option Nat)
  deriving DecidableEq, Repr

/-- The tracker before its first render. -/
def initTracker : TrackerState :=
  { attached := false, domWidth := 0, width := 0, prevDeps := none }

/-- One render-commit-layout-effect pass in which the box's rendered width
becomes `newW`.  Returns the state after the pass and whether the `setWidth`
call changed the state value (scheduling one more synchronous render before
paint). -/
def renderCommit (newW : Nat) (s : TrackerState) : TrackerState × Bool :=
  let dep : Option Nat := if s.attached then some s.domWidth else none
  let fires : Bool :=
    match s.prevDeps with
    | none => true
    | some prev => decide (dep ≠ prev)
  let s1 : TrackerState :=
    { attached := true, domWidth := newW, width := s.width, prevDeps := some dep }
  if fires then
    ({ s1 with width := s1.domWidth }, decide (s1.domWidth ≠ s.width))
  else
    (s1, false)

/-- Flush render passes until `setWidth` stops changing the state (React
bails out on an identical value), with fuel; the cascade stabilises within
three passes, so fuel 4 is enough for every input used here. -/
def flushAux : Nat → Nat → TrackerState → TrackerState
  | 0, _, s => s
  | fuel + 1, w, s =>
    match renderCommit w s with
    | (s1, again) => if again then flushAux fuel w s1 else s1

/-- A browser task that commits the box at rendered width `w` and runs all
layout-effect work that React performs before the next paint. -/
def commitWidth (w : Nat) (s : TrackerState) : TrackerState :=
  flushAux 4 w s

/-! ### Focus action of `ThemeToggle` (App.js lines 33-46) -/

/-- The application state visible to the demo: the global theme, the
counter component's two state cells, and the tracker's measured width. -/
structure AppState where
  theme : String
  count : Nat
  customWidth : String
  measuredWidth : Nat
  deriving DecidableEq

/-- Imperative DOM commands a handler can emit; `focusElem` carries the
identity of the DOM element receiving focus.  `handleFocus` never calls any
state setter, so no state-changing command exists in its output. -/
inductive DomCommand where
  | focusElem : Nat → DomCommand
  deriving DecidableEq

/-- The `handleFocus` handler of App.js lines 41-46: if `buttonRef.current`
is non-null, call `.focus()` on it; otherwise do nothing.  It reads no state
setter, so the application state is returned unchanged. -/
def handleFocus (buttonRef : Option Nat) (s : AppState) :
    AppState × List DomCommand :=
  match buttonRef with
  | some el => (s, [DomCommand.focusElem el])
  | none => (s, [])

/-! ### Application root render tree (App.js lines 195-248) -/

/-- Tags naming the components of the demo tree. -/
inductive Tag where
  | themeProvider
  | loadingPlaceholder
  | themeConsumer
  | heading
  | themeToggle
  | documentTitleUpdater
  | domChangeTracker
  | footer
  deriving DecidableEq, Repr

/-- The render tree shapes that `App` can produce. -/
inductive Node where
  | themeProvider : Node → Node
  | loadingPlaceholder : Node
  | themeConsumer : Node → Node → Node → Node → Node
  | heading : Node
  | themeToggle : Node
  | documentTitleUpdater : Node → Node
  | domChangeTracker : Node
  | footer : Node
  deriving DecidableEq, Repr

/-- Preorder flattening of a render tree: the list of mounted components in
composition order. -/
def mountedTags : Node → List Tag
  | .themeProvider c => Tag.themeProvider :: mountedTags c
  | .loadingPlaceholder => [Tag.loadingPlaceholder]
  | .themeConsumer a b c d =>
      Tag.themeConsumer ::
        (mountedTags a ++ mountedTags b ++ mountedTags c ++ mountedTags d)
  | .heading => [Tag.heading]
  | .themeToggle => [Tag.themeToggle]
  | .documentTitleUpdater c => Tag.documentTitleUpdater :: mountedTags c
  | .domChangeTracker => [Tag.domChangeTracker]
  | .footer => [Tag.footer]

/-- `DocumentTitleUpdater` renders `DomChangeTracker` as its child
(App.js line 143). -/
def documentTitleUpdaterTree : Node :=
  Node.documentTitleUpdater Node.domChangeTracker

/-- The tree rendered by `App` (App.js lines 218-247): the `ThemeProvider`
always wraps the whole output; inside it, while the Tailwind script has not
loaded, only the loading placeholder is rendered, and once it has loaded the
`ThemeContext.Consumer` renders the heading, `ThemeToggle`,
`DocumentTitleUpdater` and the footer in that order. -/
def appRender (isTailwindLoaded : Bool) : Node :=
  Node.themeProvider
    (if isTailwindLoaded then
      Node.themeConsumer Node.heading Node.themeToggle
        documentTitleUpdaterTree Node.footer
    else
      Node.loadingPlaceholder)

/-! ### Context value identity (App.js lines 12-29, ThemeContext.jsx 7-27)

Each render of `ThemeProvider` executes its body afresh: the arrow function
`toggleTheme` and the object literal `contextValue` are newly allocated on
every render pass.  Object identity is modelled by tagging the produced
value with the index of the render pass that allocated it. -/

structure ContextValue where
  /-- The `theme` field of the context value. -/
  theme : String
  /-- Identity of the `toggleTheme` closure placed in the value: the render
  pass that allocated it (a fresh closure per render, no `useCallback`). -/
  toggleId : Nat
  /-- Identity of the `contextValue` object literal itself: the render pass
  that allocated it (a fresh object per render, no `useMemo`). -/
  objectId : Nat
  deriving DecidableEq, Repr

/-- The context value produced by the `ThemeProvider` body on render pass
`renderIx` with current theme `theme` (App.js lines 15-22). -/
def providerContextValue (renderIx : Nat) (theme : String) : ContextValue :=
  { theme := theme, toggleId := renderIx, objectId := renderIx }

/-- The style variant `ThemeToggle` renders, keyed only on the theme
(App.js lines 37-39). -/
def currentThemeStyle (cv : ContextValue) : String :=
  if cv.theme = "dark" then
    "bg-gray-800 text-white hover:bg-gray-700 border-gray-600"
  else
    "bg-white text-gray-900 hover:bg-gray-100 border-gray-300"

/-- Clicking the toggle button applies the state transition of
`toggleTheme` to the current theme; which render pass allocated the closure
is irrelevant to the transition (App.js lines 15-17, 60). -/
def clickToggle (cv : ContextValue) : String := toggleTheme cv.theme

/-! ### Scaffolding script `test.sh`

The script unconditionally writes `context/ThemeContext.jsx` and
`components/ThemeToggle.jsx` from two heredocs.  Then, if
`grep -q "function App()" App.jsx || grep -q "const App =" App.jsx`
succeeds (test.sh line 86), it runs a `sed` insertion of two import lines
and immediately afterwards overwrites the whole of `App.jsx` with a third
heredoc (test.sh lines 100-124), so the final content of `App.jsx` in that
branch is exactly the heredoc output; otherwise it prints a warning and
never touches `App.jsx` (test.sh line 127).  File contents are byte lists;
the model gives the final on-disk state after the script finishes. -/

/-- The bytes of a string (all contents involved are ASCII). -/
def strBytes (s : String) : List Nat :=
  s.toList.map Char.toNat

/-- Byte content of the checked-in file src/context/ThemeContext.jsx (867 bytes; the file has no final newline) -/
def ctxFileBytes : List Nat := [
  105, 109, 112, 111, 114, 116, 32, 82, 101, 97, 99, 116, 44, 32, 123, 32, 99, 114, 101, 97,
  116, 101, 67, 111, 110, 116, 101, 120, 116, 44, 32, 117, 115, 101, 83, 116, 97, 116, 101, 44,
  32, 117, 115, 101, 67, 111, 110, 116, 101, 120, 116, 32, 125, 32, 102, 114, 111, 109, 32, 39,
  114, 101, 97, 99, 116, 39, 59, 10, 10, 47, 47, 32, 49, 46, 32, 67, 114, 101, 97, 116, 101, 32,
  116, 104, 101, 32, 67, 111, 110, 116, 101, 120, 116, 10, 101, 120, 112, 111, 114, 116, 32, 99,
  111, 110, 115, 116, 32, 84, 104, 101, 109, 101, 67, 111, 110, 116, 101, 120, 116, 32, 61, 32,
  99, 114, 101, 97, 116, 101, 67, 111, 110, 116, 101, 120, 116, 40, 41, 59, 10, 10, 47, 47, 32,
  50, 46, 32, 67, 114, 101, 97, 116, 101, 32, 116, 104, 101, 32, 80, 114, 111, 118, 105, 100,
  101, 114, 32, 67, 111, 109, 112, 111, 110, 101, 110, 116, 10, 101, 120, 112, 111, 114, 116,
  32, 99, 111, 110, 115, 116, 32, 84, 104, 101, 109, 101, 80, 114, 111, 118, 105, 100, 101, 114,
  32, 61, 32, 40, 123, 32, 99, 104, 105, 108, 100, 114, 101, 110, 32, 125, 41, 32, 61, 62, 32,
  123, 10, 32, 32, 47, 47, 32, 85, 115, 101, 32, 117, 115, 101, 83, 116, 97, 116, 101, 32, 116,
  111, 32, 109, 97, 110, 97, 103, 101, 32, 116, 104, 101, 32, 103, 108, 111, 98, 97, 108, 32,
  116, 104, 101, 109, 101, 32, 115, 116, 97, 116, 101, 10, 32, 32, 99, 111, 110, 115, 116, 32,
  91, 116, 104, 101, 109, 101, 44, 32, 115, 101, 116, 84, 104, 101, 109, 101, 93, 32, 61, 32,
  117, 115, 101, 83, 116, 97, 116, 101, 40, 39, 108, 105, 103, 104, 116, 39, 41, 59, 10, 10, 32,
  32, 99, 111, 110, 115, 116, 32, 116, 111, 103, 103, 108, 101, 84, 104, 101, 109, 101, 32, 61,
  32, 40, 41, 32, 61, 62, 32, 123, 10, 32, 32, 32, 32, 115, 101, 116, 84, 104, 101, 109, 101,
  40, 112, 114, 101, 118, 84, 104, 101, 109, 101, 32, 61, 62, 32, 40, 112, 114, 101, 118, 84,
  104, 101, 109, 101, 32, 61, 61, 61, 32, 39, 108, 105, 103, 104, 116, 39, 32, 63, 32, 39, 100,
  97, 114, 107, 39, 32, 58, 32, 39, 108, 105, 103, 104, 116, 39, 41, 41, 59, 10, 32, 32, 32, 32,
  99, 111, 110, 115, 111, 108, 101, 46, 108, 111, 103, 40, 39, 84, 104, 101, 109, 101, 32, 116,
  111, 103, 103, 108, 101, 100, 32, 116, 111, 58, 39, 44, 32, 116, 104, 101, 109, 101, 32, 61,
  61, 61, 32, 39, 108, 105, 103, 104, 116, 39, 32, 63, 32, 39, 100, 97, 114, 107, 39, 32, 58,
  32, 39, 108, 105, 103, 104, 116, 39, 41, 59, 10, 32, 32, 125, 59, 10, 10, 32, 32, 47, 47, 32,
  84, 104, 101, 32, 118, 97, 108, 117, 101, 32, 111, 98, 106, 101, 99, 116, 32, 104, 111, 108,
  100, 115, 32, 116, 104, 101, 32, 115, 116, 97, 116, 101, 32, 97, 110, 100, 32, 116, 104, 101,
  32, 115, 101, 116, 116, 101, 114, 47, 116, 111, 103, 103, 108, 101, 32, 102, 117, 110, 99,
  116, 105, 111, 110, 10, 32, 32, 99, 111, 110, 115, 116, 32, 99, 111, 110, 116, 101, 120, 116,
  86, 97, 108, 117, 101, 32, 61, 32, 123, 10, 32, 32, 32, 32, 116, 104, 101, 109, 101, 44, 10,
  32, 32, 32, 32, 116, 111, 103, 103, 108, 101, 84, 104, 101, 109, 101, 44, 10, 32, 32, 125, 59,
  10, 10, 32, 32, 114, 101, 116, 117, 114, 110, 32, 40, 10, 32, 32, 32, 32, 60, 84, 104, 101,
  109, 101, 67, 111, 110, 116, 101, 120, 116, 46, 80, 114, 111, 118, 105, 100, 101, 114, 32,
  118, 97, 108, 117, 101, 61, 123, 99, 111, 110, 116, 101, 120, 116, 86, 97, 108, 117, 101, 125,
  62, 10, 32, 32, 32, 32, 32, 32, 123, 99, 104, 105, 108, 100, 114, 101, 110, 125, 10, 32, 32,
  32, 32, 60, 47, 84, 104, 101, 109, 101, 67, 111, 110, 116, 101, 120, 116, 46, 80, 114, 111,
  118, 105, 100, 101, 114, 62, 10, 32, 32, 41, 59, 10, 125, 59, 10, 10, 47, 47, 32, 51, 46, 32,
  67, 114, 101, 97, 116, 101, 32, 97, 32, 67, 117, 115, 116, 111, 109, 32, 72, 111, 111, 107,
  32, 102, 111, 114, 32, 101, 97, 115, 121, 32, 99, 111, 110, 115, 117, 109, 112, 116, 105, 111,
  110, 10, 101, 120, 112, 111, 114, 116, 32, 99, 111, 110, 115, 116, 32, 117, 115, 101, 84, 104,
  101, 109, 101, 32, 61, 32, 40, 41, 32, 61, 62, 32, 123, 10, 32, 32, 114, 101, 116, 117, 114,
  110, 32, 117, 115, 101, 67, 111, 110, 116, 101, 120, 116, 40, 84, 104, 101, 109, 101, 67, 111,
  110, 116, 101, 120, 116, 41, 59, 10, 125, 59]

/-- Byte content of the checked-in file src/components/ThemeToggle.jsx (1115 bytes) -/
def compFileBytes : List Nat := [
  105, 109, 112, 111, 114, 116, 32, 82, 101, 97, 99, 116, 32, 102, 114, 111, 109, 32, 39, 114,
  101, 97, 99, 116, 39, 59, 10, 47, 47, 32, 73, 109, 112, 111, 114, 116, 32, 116, 104, 101, 32,
  99, 117, 115, 116, 111, 109, 32, 104, 111, 111, 107, 32, 102, 114, 111, 109, 32, 116, 104,
  101, 32, 99, 111, 110, 116, 101, 120, 116, 32, 102, 105, 108, 101, 10, 105, 109, 112, 111,
  114, 116, 32, 123, 32, 117, 115, 101, 84, 104, 101, 109, 101, 32, 125, 32, 102, 114, 111, 109,
  32, 39, 46, 46, 47, 99, 111, 110, 116, 101, 120, 116, 47, 84, 104, 101, 109, 101, 67, 111,
  110, 116, 101, 120, 116, 39, 59, 10, 10, 102, 117, 110, 99, 116, 105, 111, 110, 32, 84, 104,
  101, 109, 101, 84, 111, 103, 103, 108, 101, 40, 41, 32, 123, 10, 32, 32, 47, 47, 32, 85, 115,
  101, 32, 116, 104, 101, 32, 99, 117, 115, 116, 111, 109, 32, 104, 111, 111, 107, 32, 116, 111,
  32, 97, 99, 99, 101, 115, 115, 32, 99, 111, 110, 116, 101, 120, 116, 32, 118, 97, 108, 117,
  101, 115, 10, 32, 32, 99, 111, 110, 115, 116, 32, 123, 32, 116, 104, 101, 109, 101, 44, 32,
  116, 111, 103, 103, 108, 101, 84, 104, 101, 109, 101, 32, 125, 32, 61, 32, 117, 115, 101, 84,
  104, 101, 109, 101, 40, 41, 59, 10, 10, 32, 32, 114, 101, 116, 117, 114, 110, 32, 40, 10, 32,
  32, 32, 32, 60, 100, 105, 118, 32, 115, 116, 121, 108, 101, 61, 123, 123, 32, 112, 97, 100,
  100, 105, 110, 103, 58, 32, 39, 50, 48, 112, 120, 39, 44, 32, 98, 111, 114, 100, 101, 114, 58,
  32, 39, 49, 112, 120, 32, 115, 111, 108, 105, 100, 32, 35, 99, 99, 99, 39, 44, 32, 109, 97,
  114, 103, 105, 110, 58, 32, 39, 50, 48, 112, 120, 39, 44, 32, 98, 97, 99, 107, 103, 114, 111,
  117, 110, 100, 67, 111, 108, 111, 114, 58, 32, 116, 104, 101, 109, 101, 32, 61, 61, 61, 32,
  39, 100, 97, 114, 107, 39, 32, 63, 32, 39, 35, 51, 51, 51, 39, 32, 58, 32, 39, 35, 102, 48,
  102, 48, 102, 48, 39, 44, 32, 99, 111, 108, 111, 114, 58, 32, 116, 104, 101, 109, 101, 32, 61,
  61, 61, 32, 39, 100, 97, 114, 107, 39, 32, 63, 32, 39, 119, 104, 105, 116, 101, 39, 32, 58,
  32, 39, 98, 108, 97, 99, 107, 39, 32, 125, 125, 62, 10, 32, 32, 32, 32, 32, 32, 60, 104, 50,
  62, 84, 104, 101, 109, 101, 32, 67, 111, 110, 115, 117, 109, 101, 114, 32, 67, 111, 109, 112,
  111, 110, 101, 110, 116, 60, 47, 104, 50, 62, 10, 32, 32, 32, 32, 32, 32, 60, 112, 62, 67,
  117, 114, 114, 101, 110, 116, 32, 84, 104, 101, 109, 101, 58, 32, 60, 115, 116, 114, 111, 110,
  103, 62, 123, 116, 104, 101, 109, 101, 125, 60, 47, 115, 116, 114, 111, 110, 103, 62, 60, 47,
  112, 62, 10, 32, 32, 32, 32, 32, 32, 10, 32, 32, 32, 32, 32, 32, 123, 47, 42, 32, 66, 117,
  116, 116, 111, 110, 32, 99, 97, 108, 108, 115, 32, 116, 104, 101, 32, 102, 117, 110, 99, 116,
  105, 111, 110, 32, 112, 114, 111, 118, 105, 100, 101, 100, 32, 98, 121, 32, 116, 104, 101, 32,
  99, 111, 110, 116, 101, 120, 116, 32, 42, 47, 125, 10, 32, 32, 32, 32, 32, 32, 60, 98, 117,
  116, 116, 111, 110, 32, 111, 110, 67, 108, 105, 99, 107, 61, 123, 116, 111, 103, 103, 108,
  101, 84, 104, 101, 109, 101, 125, 32, 115, 116, 121, 108, 101, 61, 123, 123, 32, 112, 97, 100,
  100, 105, 110, 103, 58, 32, 39, 49, 48, 112, 120, 39, 44, 32, 98, 97, 99, 107, 103, 114, 111,
  117, 110, 100, 67, 111, 108, 111, 114, 58, 32, 116, 104, 101, 109, 101, 32, 61, 61, 61, 32,
  39, 100, 97, 114, 107, 39, 32, 63, 32, 39, 35, 102, 102, 102, 39, 32, 58, 32, 39, 35, 51, 51,
  51, 39, 44, 32, 99, 111, 108, 111, 114, 58, 32, 116, 104, 101, 109, 101, 32, 61, 61, 61, 32,
  39, 100, 97, 114, 107, 39, 32, 63, 32, 39, 35, 51, 51, 51, 39, 32, 58, 32, 39, 35, 102, 102,
  102, 39, 44, 32, 99, 117, 114, 115, 111, 114, 58, 32, 39, 112, 111, 105, 110, 116, 101, 114,
  39, 32, 125, 125, 62, 10, 32, 32, 32, 32, 32, 32, 32, 32, 84, 111, 103, 103, 108, 101, 32,
  116, 111, 32, 123, 116, 104, 101, 109, 101, 32, 61, 61, 61, 32, 39, 108, 105, 103, 104, 116,
  39, 32, 63, 32, 39, 68, 97, 114, 107, 39, 32, 58, 32, 39, 76, 105, 103, 104, 116, 39, 125, 32,
  77, 111, 100, 101, 10, 32, 32, 32, 32, 32, 32, 60, 47, 98, 117, 116, 116, 111, 110, 62, 10,
  10, 32, 32, 32, 32, 32, 32, 60, 112, 32, 115, 116, 121, 108, 101, 61, 123, 123, 32, 109, 97,
  114, 103, 105, 110, 84, 111, 112, 58, 32, 39, 49, 53, 112, 120, 39, 44, 32, 102, 111, 110,
  116, 83, 105, 122, 101, 58, 32, 39, 115, 109, 97, 108, 108, 39, 32, 125, 125, 62, 10, 32, 32,
  32, 32, 32, 32, 32, 32, 42, 42, 67, 111, 110, 116, 101, 120, 116, 32, 68, 101, 109, 111, 110,
  115, 116, 114, 97, 116, 105, 111, 110, 58, 42, 42, 32, 84, 104, 105, 115, 32, 99, 111, 109,
  112, 111, 110, 101, 110, 116, 32, 97, 117, 116, 111, 109, 97, 116, 105, 99, 97, 108, 108, 121,
  32, 114, 101, 45, 114, 101, 110, 100, 101, 114, 115, 32, 119, 104, 101, 110, 101, 118, 101,
  114, 32, 116, 104, 101, 32, 103, 108, 111, 98, 97, 108, 32, 39, 116, 104, 101, 109, 101, 39,
  32, 118, 97, 108, 117, 101, 32, 99, 104, 97, 110, 103, 101, 115, 32, 105, 110, 32, 116, 104,
  101, 32, 80, 114, 111, 118, 105, 100, 101, 114, 46, 10, 32, 32, 32, 32, 32, 32, 60, 47, 112,
  62, 10, 32, 32, 32, 32, 60, 47, 100, 105, 118, 62, 10, 32, 32, 41, 59, 10, 125, 10, 10, 101,
  120, 112, 111, 114, 116, 32, 100, 101, 102, 97, 117, 108, 116, 32, 84, 104, 101, 109, 101, 84,
  111, 103, 103, 108, 101, 59, 10]

/-- Byte output of the heredoc at test.sh lines 11-44 that the script writes to context/ThemeContext.jsx (868 bytes; the heredoc emits a final newline) -/
def ctxHeredocBytes : List Nat := [
  105, 109, 112, 111, 114, 116, 32, 82, 101, 97, 99, 116, 44, 32, 123, 32, 99, 114, 101, 97,
  116, 101, 67, 111, 110, 116, 101, 120, 116, 44, 32, 117, 115, 101, 83, 116, 97, 116, 101, 44,
  32, 117, 115, 101, 67, 111, 110, 116, 101, 120, 116, 32, 125, 32, 102, 114, 111, 109, 32, 39,
  114, 101, 97, 99, 116, 39, 59, 10, 10, 47, 47, 32, 49, 46, 32, 67, 114, 101, 97, 116, 101, 32,
  116, 104, 101, 32, 67, 111, 110, 116, 101, 120, 116, 10, 101, 120, 112, 111, 114, 116, 32, 99,
  111, 110, 115, 116, 32, 84, 104, 101, 109, 101, 67, 111, 110, 116, 101, 120, 116, 32, 61, 32,
  99, 114, 101, 97, 116, 101, 67, 111, 110, 116, 101, 120, 116, 40, 41, 59, 10, 10, 47, 47, 32,
  50, 46, 32, 67, 114, 101, 97, 116, 101, 32, 116, 104, 101, 32, 80, 114, 111, 118, 105, 100,
  101, 114, 32, 67, 111, 109, 112, 111, 110, 101, 110, 116, 10, 101, 120, 112, 111, 114, 116,
  32, 99, 111, 110, 115, 116, 32, 84, 104, 101, 109, 101, 80, 114, 111, 118, 105, 100, 101, 114,
  32, 61, 32, 40, 123, 32, 99, 104, 105, 108, 100, 114, 101, 110, 32, 125, 41, 32, 61, 62, 32,
  123, 10, 32, 32, 47, 47, 32, 85, 115, 101, 32, 117, 115, 101, 83, 116, 97, 116, 101, 32, 116,
  111, 32, 109, 97, 110, 97, 103, 101, 32, 116, 104, 101, 32, 103, 108, 111, 98, 97, 108, 32,
  116, 104, 101, 109, 101, 32, 115, 116, 97, 116, 101, 10, 32, 32, 99, 111, 110, 115, 116, 32,
  91, 116, 104, 101, 109, 101, 44, 32, 115, 101, 116, 84, 104, 101, 109, 101, 93, 32, 61, 32,
  117, 115, 101, 83, 116, 97, 116, 101, 40, 39, 108, 105, 103, 104, 116, 39, 41, 59, 10, 10, 32,
  32, 99, 111, 110, 115, 116, 32, 116, 111, 103, 103, 108, 101, 84, 104, 101, 109, 101, 32, 61,
  32, 40, 41, 32, 61, 62, 32, 123, 10, 32, 32, 32, 32, 115, 101, 116, 84, 104, 101, 109, 101,
  40, 112, 114, 101, 118, 84, 104, 101, 109, 101, 32, 61, 62, 32, 40, 112, 114, 101, 118, 84,
  104, 101, 109, 101, 32, 61, 61, 61, 32, 39, 108, 105, 103, 104, 116, 39, 32, 63, 32, 39, 100,
  97, 114, 107, 39, 32, 58, 32, 39, 108, 105, 103, 104, 116, 39, 41, 41, 59, 10, 32, 32, 32, 32,
  99, 111, 110, 115, 111, 108, 101, 46, 108, 111, 103, 40, 39, 84, 104, 101, 109, 101, 32, 116,
  111, 103, 103, 108, 101, 100, 32, 116, 111, 58, 39, 44, 32, 116, 104, 101, 109, 101, 32, 61,
  61, 61, 32, 39, 108, 105, 103, 104, 116, 39, 32, 63, 32, 39, 100, 97, 114, 107, 39, 32, 58,
  32, 39, 108, 105, 103, 104, 116, 39, 41, 59, 10, 32, 32, 125, 59, 10, 10, 32, 32, 47, 47, 32,
  84, 104, 101, 32, 118, 97, 108, 117, 101, 32, 111, 98, 106, 101, 99, 116, 32, 104, 111, 108,
  100, 115, 32, 116, 104, 101, 32, 115, 116, 97, 116, 101, 32, 97, 110, 100, 32, 116, 104, 101,
  32, 115, 101, 116, 116, 101, 114, 47, 116, 111, 103, 103, 108, 101, 32, 102, 117, 110, 99,
  116, 105, 111, 110, 10, 32, 32, 99, 111, 110, 115, 116, 32, 99, 111, 110, 116, 101, 120, 116,
  86, 97, 108, 117, 101, 32, 61, 32, 123, 10, 32, 32, 32, 32, 116, 104, 101, 109, 101, 44, 10,
  32, 32, 32, 32, 116, 111, 103, 103, 108, 101, 84, 104, 101, 109, 101, 44, 10, 32, 32, 125, 59,
  10, 10, 32, 32, 114, 101, 116, 117, 114, 110, 32, 40, 10, 32, 32, 32, 32, 60, 84, 104, 101,
  109, 101, 67, 111, 110, 116, 101, 120, 116, 46, 80, 114, 111, 118, 105, 100, 101, 114, 32,
  118, 97, 108, 117, 101, 61, 123, 99, 111, 110, 116, 101, 120, 116, 86, 97, 108, 117, 101, 125,
  62, 10, 32, 32, 32, 32, 32, 32, 123, 99, 104, 105, 108, 100, 114, 101, 110, 125, 10, 32, 32,
  32, 32, 60, 47, 84, 104, 101, 109, 101, 67, 111, 110, 116, 101, 120, 116, 46, 80, 114, 111,
  118, 105, 100, 101, 114, 62, 10, 32, 32, 41, 59, 10, 125, 59, 10, 10, 47, 47, 32, 51, 46, 32,
  67, 114, 101, 97, 116, 101, 32, 97, 32, 67, 117, 115, 116, 111, 109, 32, 72, 111, 111, 107,
  32, 102, 111, 114, 32, 101, 97, 115, 121, 32, 99, 111, 110, 115, 117, 109, 112, 116, 105, 111,
  110, 10, 101, 120, 112, 111, 114, 116, 32, 99, 111, 110, 115, 116, 32, 117, 115, 101, 84, 104,
  101, 109, 101, 32, 61, 32, 40, 41, 32, 61, 62, 32, 123, 10, 32, 32, 114, 101, 116, 117, 114,
  110, 32, 117, 115, 101, 67, 111, 110, 116, 101, 120, 116, 40, 84, 104, 101, 109, 101, 67, 111,
  110, 116, 101, 120, 116, 41, 59, 10, 125, 59, 10]

/-- Byte output of the heredoc at test.sh lines 49-76 that the script writes to components/ThemeToggle.jsx (1115 bytes) -/
def compHeredocBytes : List Nat := [
  105, 109, 112, 111, 114, 116, 32, 82, 101, 97, 99, 116, 32, 102, 114, 111, 109, 32, 39, 114,
  101, 97, 99, 116, 39, 59, 10, 47, 47, 32, 73, 109, 112, 111, 114, 116, 32, 116, 104, 101, 32,
  99, 117, 115, 116, 111, 109, 32, 104, 111, 111, 107, 32, 102, 114, 111, 109, 32, 116, 104,
  101, 32, 99, 111, 110, 116, 101, 120, 116, 32, 102, 105, 108, 101, 10, 105, 109, 112, 111,
  114, 116, 32, 123, 32, 117, 115, 101, 84, 104, 101, 109, 101, 32, 125, 32, 102, 114, 111, 109,
  32, 39, 46, 46, 47, 99, 111, 110, 116, 101, 120, 116, 47, 84, 104, 101, 109, 101, 67, 111,
  110, 116, 101, 120, 116, 39, 59, 10, 10, 102, 117, 110, 99, 116, 105, 111, 110, 32, 84, 104,
  101, 109, 101, 84, 111, 103, 103, 108, 101, 40, 41, 32, 123, 10, 32, 32, 47, 47, 32, 85, 115,
  101, 32, 116, 104, 101, 32, 99, 117, 115, 116, 111, 109, 32, 104, 111, 111, 107, 32, 116, 111,
  32, 97, 99, 99, 101, 115, 115, 32, 99, 111, 110, 116, 101, 120, 116, 32, 118, 97, 108, 117,
  101, 115, 10, 32, 32, 99, 111, 110, 115, 116, 32, 123, 32, 116, 104, 101, 109, 101, 44, 32,
  116, 111, 103, 103, 108, 101, 84, 104, 101, 109, 101, 32, 125, 32, 61, 32, 117, 115, 101, 84,
  104, 101, 109, 101, 40, 41, 59, 10, 10, 32, 32, 114, 101, 116, 117, 114, 110, 32, 40, 10, 32,
  32, 32, 32, 60, 100, 105, 118, 32, 115, 116, 121, 108, 101, 61, 123, 123, 32, 112, 97, 100,
  100, 105, 110, 103, 58, 32, 39, 50, 48, 112, 120, 39, 44, 32, 98, 111, 114, 100, 101, 114, 58,
  32, 39, 49, 112, 120, 32, 115, 111, 108, 105, 100, 32, 35, 99, 99, 99, 39, 44, 32, 109, 97,
  114, 103, 105, 110, 58, 32, 39, 50, 48, 112, 120, 39, 44, 32, 98, 97, 99, 107, 103, 114, 111,
  117, 110, 100, 67, 111, 108, 111, 114, 58, 32, 116, 104, 101, 109, 101, 32, 61, 61, 61, 32,
  39, 100, 97, 114, 107, 39, 32, 63, 32, 39, 35, 51, 51, 51, 39, 32, 58, 32, 39, 35, 102, 48,
  102, 48, 102, 48, 39, 44, 32, 99, 111, 108, 111, 114, 58, 32, 116, 104, 101, 109, 101, 32, 61,
  61, 61, 32, 39, 100, 97, 114, 107, 39, 32, 63, 32, 39, 119, 104, 105, 116, 101, 39, 32, 58,
  32, 39, 98, 108, 97, 99, 107, 39, 32, 125, 125, 62, 10, 32, 32, 32, 32, 32, 32, 60, 104, 50,
  62, 84, 104, 101, 109, 101, 32, 67, 111, 110, 115, 117, 109, 101, 114, 32, 67, 111, 109, 112,
  111, 110, 101, 110, 116, 60, 47, 104, 50, 62, 10, 32, 32, 32, 32, 32, 32, 60, 112, 62, 67,
  117, 114, 114, 101, 110, 116, 32, 84, 104, 101, 109, 101, 58, 32, 60, 115, 116, 114, 111, 110,
  103, 62, 123, 116, 104, 101, 109, 101, 125, 60, 47, 115, 116, 114, 111, 110, 103, 62, 60, 47,
  112, 62, 10, 32, 32, 32, 32, 32, 32, 10, 32, 32, 32, 32, 32, 32, 123, 47, 42, 32, 66, 117,
  116, 116, 111, 110, 32, 99, 97, 108, 108, 115, 32, 116, 104, 101, 32, 102, 117, 110, 99, 116,
  105, 111, 110, 32, 112, 114, 111, 118, 105, 100, 101, 100, 32, 98, 121, 32, 116, 104, 101, 32,
  99, 111, 110, 116, 101, 120, 116, 32, 42, 47, 125, 10, 32, 32, 32, 32, 32, 32, 60, 98, 117,
  116, 116, 111, 110, 32, 111, 110, 67, 108, 105, 99, 107, 61, 123, 116, 111, 103, 103, 108,
  101, 84, 104, 101, 109, 101, 125, 32, 115, 116, 121, 108, 101, 61, 123, 123, 32, 112, 97, 100,
  100, 105, 110, 103, 58, 32, 39, 49, 48, 112, 120, 39, 44, 32, 98, 97, 99, 107, 103, 114, 111,
  117, 110, 100, 67, 111, 108, 111, 114, 58, 32, 116, 104, 101, 109, 101, 32, 61, 61, 61, 32,
  39, 100, 97, 114, 107, 39, 32, 63, 32, 39, 35, 102, 102, 102, 39, 32, 58, 32, 39, 35, 51, 51,
  51, 39, 44, 32, 99, 111, 108, 111, 114, 58, 32, 116, 104, 101, 109, 101, 32, 61, 61, 61, 32,
  39, 100, 97, 114, 107, 39, 32, 63, 32, 39, 35, 51, 51, 51, 39, 32, 58, 32, 39, 35, 102, 102,
  102, 39, 44, 32, 99, 117, 114, 115, 111, 114, 58, 32, 39, 112, 111, 105, 110, 116, 101, 114,
  39, 32, 125, 125, 62, 10, 32, 32, 32, 32, 32, 32, 32, 32, 84, 111, 103, 103, 108, 101, 32,
  116, 111, 32, 123, 116, 104, 101, 109, 101, 32, 61, 61, 61, 32, 39, 108, 105, 103, 104, 116,
  39, 32, 63, 32, 39, 68, 97, 114, 107, 39, 32, 58, 32, 39, 76, 105, 103, 104, 116, 39, 125, 32,
  77, 111, 100, 101, 10, 32, 32, 32, 32, 32, 32, 60, 47, 98, 117, 116, 116, 111, 110, 62, 10,
  10, 32, 32, 32, 32, 32, 32, 60, 112, 32, 115, 116, 121, 108, 101, 61, 123, 123, 32, 109, 97,
  114, 103, 105, 110, 84, 111, 112, 58, 32, 39, 49, 53, 112, 120, 39, 44, 32, 102, 111, 110,
  116, 83, 105, 122, 101, 58, 32, 39, 115, 109, 97, 108, 108, 39, 32, 125, 125, 62, 10, 32, 32,
  32, 32, 32, 32, 32, 32, 42, 42, 67, 111, 110, 116, 101, 120, 116, 32, 68, 101, 109, 111, 110,
  115, 116, 114, 97, 116, 105, 111, 110, 58, 42, 42, 32, 84, 104, 105, 115, 32, 99, 111, 109,
  112, 111, 110, 101, 110, 116, 32, 97, 117, 116, 111, 109, 97, 116, 105, 99, 97, 108, 108, 121,
  32, 114, 101, 45, 114, 101, 110, 100, 101, 114, 115, 32, 119, 104, 101, 110, 101, 118, 101,
  114, 32, 116, 104, 101, 32, 103, 108, 111, 98, 97, 108, 32, 39, 116, 104, 101, 109, 101, 39,
  32, 118, 97, 108, 117, 101, 32, 99, 104, 97, 110, 103, 101, 115, 32, 105, 110, 32, 116, 104,
  101, 32, 80, 114, 111, 118, 105, 100, 101, 114, 46, 10, 32, 32, 32, 32, 32, 32, 60, 47, 112,
  62, 10, 32, 32, 32, 32, 60, 47, 100, 105, 118, 62, 10, 32, 32, 41, 59, 10, 125, 10, 10, 101,
  120, 112, 111, 114, 116, 32, 100, 101, 102, 97, 117, 108, 116, 32, 84, 104, 101, 109, 101, 84,
  111, 103, 103, 108, 101, 59, 10]

/-- Byte output of the heredoc at test.sh lines 100-124 with which the script overwrites App.jsx in the pattern-matching branch -/
def appOverwriteBytes : List Nat := [
  105, 109, 112, 111, 114, 116, 32, 82, 101, 97, 99, 116, 32, 102, 114, 111, 109, 32, 39, 114,
  101, 97, 99, 116, 39, 59, 10, 105, 109, 112, 111, 114, 116, 32, 39, 46, 47, 65, 112, 112, 46,
  99, 115, 115, 39, 59, 10, 105, 109, 112, 111, 114, 116, 32, 123, 32, 84, 104, 101, 109, 101,
  80, 114, 111, 118, 105, 100, 101, 114, 32, 125, 32, 102, 114, 111, 109, 32, 34, 46, 47, 99,
  111, 110, 116, 101, 120, 116, 47, 84, 104, 101, 109, 101, 67, 111, 110, 116, 101, 120, 116,
  34, 59, 10, 105, 109, 112, 111, 114, 116, 32, 84, 104, 101, 109, 101, 84, 111, 103, 103, 108,
  101, 32, 102, 114, 111, 109, 32, 34, 46, 47, 99, 111, 109, 112, 111, 110, 101, 110, 116, 115,
  47, 84, 104, 101, 109, 101, 84, 111, 103, 103, 108, 101, 34, 59, 10, 10, 102, 117, 110, 99,
  116, 105, 111, 110, 32, 65, 112, 112, 40, 41, 32, 123, 10, 32, 32, 114, 101, 116, 117, 114,
  110, 32, 40, 10, 32, 32, 32, 32, 47, 47, 32, 87, 114, 97, 112, 32, 116, 104, 101, 32, 101,
  110, 116, 105, 114, 101, 32, 97, 112, 112, 108, 105, 99, 97, 116, 105, 111, 110, 32, 119, 105,
  116, 104, 32, 116, 104, 101, 32, 84, 104, 101, 109, 101, 80, 114, 111, 118, 105, 100, 101,
  114, 10, 32, 32, 32, 32, 60, 84, 104, 101, 109, 101, 80, 114, 111, 118, 105, 100, 101, 114,
  62, 10, 32, 32, 32, 32, 32, 32, 60, 100, 105, 118, 32, 99, 108, 97, 115, 115, 78, 97, 109,
  101, 61, 34, 65, 112, 112, 34, 32, 115, 116, 121, 108, 101, 61, 123, 123, 32, 109, 105, 110,
  72, 101, 105, 103, 104, 116, 58, 32, 39, 49, 48, 48, 118, 104, 39, 44, 32, 112, 97, 100, 100,
  105, 110, 103, 58, 32, 39, 53, 48, 112, 120, 39, 32, 125, 125, 62, 10, 32, 32, 32, 32, 32, 32,
  32, 32, 60, 104, 49, 62, 71, 108, 111, 98, 97, 108, 32, 84, 104, 101, 109, 101, 32, 67, 111,
  110, 116, 101, 120, 116, 32, 68, 101, 109, 111, 60, 47, 104, 49, 62, 10, 32, 32, 32, 32, 32,
  32, 32, 32, 123, 47, 42, 32, 84, 104, 101, 32, 99, 111, 109, 112, 111, 110, 101, 110, 116, 32,
  116, 104, 97, 116, 32, 99, 111, 110, 115, 117, 109, 101, 115, 32, 116, 104, 101, 32, 99, 111,
  110, 116, 101, 120, 116, 32, 42, 47, 125, 10, 32, 32, 32, 32, 32, 32, 32, 32, 60, 84, 104,
  101, 109, 101, 84, 111, 103, 103, 108, 101, 32, 47, 62, 10, 32, 32, 32, 32, 32, 32, 32, 32,
  10, 32, 32, 32, 32, 32, 32, 32, 32, 60, 112, 32, 115, 116, 121, 108, 101, 61, 123, 123, 32,
  109, 97, 114, 103, 105, 110, 84, 111, 112, 58, 32, 39, 51, 48, 112, 120, 39, 32, 125, 125, 62,
  10, 32, 32, 32, 32, 32, 32, 32, 32, 32, 32, 65, 110, 121, 32, 99, 111, 109, 112, 111, 110,
  101, 110, 116, 32, 119, 114, 97, 112, 112, 101, 100, 32, 98, 121, 32, 84, 104, 101, 109, 101,
  80, 114, 111, 118, 105, 100, 101, 114, 32, 99, 97, 110, 32, 117, 115, 101, 32, 116, 104, 101,
  32, 117, 115, 101, 84, 104, 101, 109, 101, 40, 41, 32, 104, 111, 111, 107, 46, 10, 32, 32, 32,
  32, 32, 32, 32, 32, 60, 47, 112, 62, 10, 32, 32, 32, 32, 32, 32, 60, 47, 100, 105, 118, 62,
  10, 32, 32, 32, 32, 60, 47, 84, 104, 101, 109, 101, 80, 114, 111, 118, 105, 100, 101, 114, 62,
  10, 32, 32, 41, 59, 10, 125, 10, 10, 101, 120, 112, 111, 114, 116, 32, 100, 101, 102, 97, 117,
  108, 116, 32, 65, 112, 112, 59, 10]

/-- The first grep pattern of test.sh line 86 (a fixed string under basic
regular expression rules). -/
def patternA : List Nat := strBytes "function App()"

/-- The second grep pattern of test.sh line 86. -/
def patternB : List Nat := strBytes "const App ="

/-- Whether the first list is a prefix of the second. -/
def bytesPrefixOf : List Nat → List Nat → Bool
  | [], _ => true
  | _ :: _, [] => false
  | a :: as, b :: bs => (a == b) && bytesPrefixOf as bs

/-- Whether the first list occurs contiguously inside the second — the
fixed-string containment that `grep -q` tests for these two patterns. -/
def bytesInfixOf : List Nat → List Nat → Bool
  | needle, [] => needle.isEmpty
  | needle, b :: rest =>
      bytesPrefixOf needle (b :: rest) || bytesInfixOf needle rest

/-- The recognition check of test.sh line 86: the entry file contains
`function App()` or `const App =`. -/
def appRecognized (content : List Nat) : Bool :=
  bytesInfixOf patternA content || bytesInfixOf patternB content

/-- The on-disk outcome of one run of the script. -/
structure ScriptResult where
  /-- Final content of context/ThemeContext.jsx. -/
  contextFile : List Nat
  /-- Final content of components/ThemeToggle.jsx. -/
  componentFile : List Nat
  /-- Final content of App.jsx (`none` when the file did not exist and the
  script left it absent). -/
  appFile : Option (List Nat)
  /-- Whether the warning of test.sh line 127 was printed. -/
  warned : Bool
  deriving DecidableEq

/-- One run of test.sh given the prior content of App.jsx (`none` = the file
does not exist, in which case both greps fail). -/
def runScript (appFile : Option (List Nat)) : ScriptResult :=
  let recognized : Bool :=
    match appFile with
    | some content => appRecognized content
    | none => false
  if recognized then
    { contextFile := ctxHeredocBytes, componentFile := compHeredocBytes,
      appFile := some appOverwriteBytes, warned := false }
  else
    { contextFile := ctxHeredocBytes, componentFile := compHeredocBytes,
      appFile := appFile, warned := true }

/-- A sample entry file that matches the recognized pattern and carries a
distinctive marker. -/
def sampleMatchingApp : List Nat :=
  strBytes "const App = () => ORIGINAL-APP-BODY-MARKER;"

/-- The marker inside `sampleMatchingApp`. -/
def markerBytes : List Nat := strBytes "ORIGINAL-APP-BODY-MARKER"

/-- A sample entry file in which neither recognized pattern occurs. -/
def sampleUnmatchedApp : List Nat :=
  strBytes "export default function Main() \x7b return null; \x7d"

/-- The initial mode of the provider in context/ThemeContext.jsx line 9:
`useState('light')`. -/
def initialThemeCtx : String := "light"

/-- On a trace whose dependency values are all equal to the mount value, no
later commit re-fires the effect. -/
theorem countChanges_const {α : Type} [DecidableEq α] (d : α) :
    ∀ l : List α, (∀ x ∈ l, x = d) → countChanges d l = 0 := by
  intro l
  induction l with
  | nil => intro _; rfl
  | cons x rest ih =>
    intro h
    have hx : x = d := h x (List.mem_cons_self x rest)
    have hrec := ih fun y hy => h y (List.mem_cons_of_mem x hy)
    simp [countChanges, hx, hrec]

/-- An effect whose dependency value is the same at every commit fires
exactly once and is cleaned up exactly once, for any nonempty trace. -/
theorem effect_const_once {α : Type} [DecidableEq α] (d : α)
    (trace : List α) (hne : trace ≠ []) (hconst : ∀ x ∈ trace, x = d) :
    effectRunCount trace = 1 ∧ releaseCount trace = 1 := by
  match trace, hne with
  | x :: rest, _ =>
    have hx : x = d := hconst x (List.mem_cons_self x rest)
    have hzero : countChanges x rest = 0 := by
      rw [hx]
      exact countChanges_const d rest fun y hy =>
        hconst y (List.mem_cons_of_mem x hy)
    constructor
    · simp [effectRunCount, hzero]
    · simp [releaseCount, rerunCleanupCount, unmountCleanupCount,
        effectRunCount, hzero]

/-! ### Theorems for the theme claims -/

/-- Parity of the toggle: applying toggle n times to light yields light for
even n and dark for odd n. -/
theorem themeAfter_parity (n : Nat) :
    themeAfter n = if n % 2 = 0 then "light" else "dark" := by
  induction n with
  | zero => rfl
  | succ k ih =>
    by_cases h : k % 2 = 0
    · have h2 : (k + 1) % 2 = 1 := by omega
      simp [themeAfter, ih, h, h2, toggleTheme]
    · have h2 : (k + 1) % 2 = 0 := by omega
      simp [themeAfter, ih, h, h2, toggleTheme]

/-- C1: starting from mode light, applying the theme toggle N times yields
light when N is even and dark when N is odd; toggle maps light to dark and
dark to light; and no number of toggles ever produces a value outside the
two-valued domain. -/
theorem toggle_parity_and_closure :
    (∀ n : Nat, themeAfter n = if n % 2 = 0 then "light" else "dark")
    ∧ toggleTheme "light" = "dark"
    ∧ toggleTheme "dark" = "light"
    ∧ ∀ n : Nat, themeAfter n = "light" ∨ themeAfter n = "dark" := by
  refine ⟨themeAfter_parity, rfl, rfl, ?_⟩
  intro n
  rw [themeAfter_parity n]
  by_cases h : n % 2 = 0 <;> simp [h]

/-- The count after k increment clicks equals k. -/
theorem countAfter_eq (k : Nat) : countAfter k = k := by
  induction k with
  | zero => rfl
  | succ n ih => simp [countAfter, incrementHandler, ih]

/-- C2: starting from count 0, performing the increment action K times yields
count = K, and the title effect then sets the document title to the string
`Count: K | Theme: mode` for the current count K and the inherited mode. -/
theorem increment_count_and_title (k : Nat) (theme : String) :
    countAfter k = k
    ∧ titleEffect (countAfter k) theme
        = "Count: " ++ toString k ++ " | Theme: " ++ theme := by
  refine ⟨countAfter_eq k, ?_⟩
  rw [countAfter_eq k]
  rfl

/-- C3: across the counter component's full mounted lifetime, modelled by any
nonempty trace of committed `(count, theme)` states, the interval effect
(dependency array `[]`, App.js line 110) fires exactly once (at mount) and
its cleanup executes exactly once (at unmount), no matter how many times
count or theme change in between. -/
theorem interval_once_per_lifetime (states : List (Nat × String))
    (h : states ≠ []) :
    effectRunCount (states.map intervalDeps) = 1
    ∧ releaseCount (states.map intervalDeps) = 1 := by
  apply effect_const_once ([] : List Nat)
  · intro hmap
    exact h (List.map_eq_nil_iff.mp hmap)
  · intro x hx
    rcases List.mem_map.mp hx with ⟨s, _, hs⟩
    exact hs.symm

/-- Concrete lifetime for C3: three commits in which the count goes 0, 1, 2
and the theme flips; the interval timer is acquired once and released once. -/
theorem interval_once_witness :
    ([((0 : Nat), "light"), (1, "light"), (2, "dark")] : List (Nat × String)) ≠ []
    ∧ effectRunCount (([((0 : Nat), "light"), (1, "light"), (2, "dark")]
        : List (Nat × String)).map intervalDeps) = 1
    ∧ releaseCount (([((0 : Nat), "light"), (1, "light"), (2, "dark")]
        : List (Nat × String)).map intervalDeps) = 1 := by
  refine ⟨by decide, ?_⟩
  exact interval_once_per_lifetime
    [((0 : Nat), "light"), (1, "light"), (2, "dark")] (by decide)

/-- C4 evidence: mount the tracker in an 800px container, then toggle the
width mode so the box's rendered width becomes 400px.  At the next paint the
committed width is 400 but the stored measured width is still 800: the
dependency `boxRef.current?.offsetWidth` was evaluated before the commit,
equals the previous dependency, and the layout effect is skipped. -/
theorem layout_measurement_stale_after_toggle :
    (commitWidth 400 (commitWidth 800 initTracker)).domWidth = 400
    ∧ (commitWidth 400 (commitWidth 800 initTracker)).width = 800
    ∧ (commitWidth 800 initTracker).width = 800 := by
  decide

/-- C5: invoking the focus action changes no application state (theme,
count, customWidth, measured width all unchanged) so it triggers no
re-render by itself, and when the ref is not yet attached it emits no
command at all (a silent no-op). -/
theorem handleFocus_pure_noop (buttonRef : Option Nat) (s : AppState) :
    (handleFocus buttonRef s).1 = s
    ∧ (handleFocus none s).2 = [] := by
  constructor
  · cases buttonRef <;> rfl
  · rfl

/-- Counterexample for C6 as stated: before the styling resource resolves,
the Theme Store/Distribution wrapper (`ThemeProvider`) is already mounted —
it wraps the loading placeholder — so it is not true that nothing below the
root mounts before readiness. -/
theorem themeProvider_mounted_before_load :
    Tag.themeProvider ∈ mountedTags (appRender false)
    ∧ mountedTags (appRender false)
        = [Tag.themeProvider, Tag.loadingPlaceholder] := by
  decide

/-- C6 (amended): before the styling resource signals readiness the root
mounts only the `ThemeProvider` wrapper with the loading placeholder inside
it — none of the demo components mount; once the resource resolves, the
consumer and the demo components mount in the fixed composition order
heading, `ThemeToggle`, `DocumentTitleUpdater` (containing
`DomChangeTracker`), footer; and the injected script's removal (the cleanup
of the `[]`-dependency script effect) executes exactly once at root unmount,
for any number of later commits. -/
theorem app_gating_and_script_release (commits : Nat) :
    mountedTags (appRender false)
      = [Tag.themeProvider, Tag.loadingPlaceholder]
    ∧ Tag.themeToggle ∉ mountedTags (appRender false)
    ∧ Tag.documentTitleUpdater ∉ mountedTags (appRender false)
    ∧ Tag.domChangeTracker ∉ mountedTags (appRender false)
    ∧ mountedTags (appRender true)
      = [Tag.themeProvider, Tag.themeConsumer, Tag.heading, Tag.themeToggle,
         Tag.documentTitleUpdater, Tag.domChangeTracker, Tag.footer]
    ∧ effectRunCount ((List.range (commits + 1)).map scriptEffectDeps) = 1
    ∧ releaseCount ((List.range (commits + 1)).map scriptEffectDeps) = 1 := by
  refine ⟨by decide, by decide, by decide, by decide, by decide, ?_⟩
  apply effect_const_once ([] : List Nat)
  · simp
  · intro x hx
    rcases List.mem_map.mp hx with ⟨i, _, hi⟩
    exact hi.symm

/-- C7: the toggle reference is not referentially stable — every provider
render pass allocates a fresh closure — but consumers tolerate the identity
churn: both the rendered style and the effect of clicking the toggle depend
only on the theme, not on the closure identity.  Moreover the context value
object is recreated on every render pass, in particular each time the mode
changes. -/
theorem contextValue_churn_tolerated (i j : Nat) (t t2 : String)
    (hij : i ≠ j) (cv cv2 : ContextValue) (hth : cv.theme = cv2.theme) :
    (providerContextValue i t).toggleId ≠ (providerContextValue j t2).toggleId
    ∧ (providerContextValue i t).objectId ≠ (providerContextValue j t2).objectId
    ∧ currentThemeStyle cv = currentThemeStyle cv2
    ∧ clickToggle cv = clickToggle cv2 := by
  refine ⟨hij, hij, ?_, ?_⟩
  · simp [currentThemeStyle, hth]
  · simp [clickToggle, hth]

/-- Concrete instance for C7: two successive provider renders (the second
after a mode change) deliver distinct toggle closures and distinct value
objects, while two context values sharing the theme render identically and
toggle identically. -/
theorem contextValue_churn_witness :
    (providerContextValue 0 "light").toggleId
        ≠ (providerContextValue 1 "dark").toggleId
    ∧ (providerContextValue 0 "light").objectId
        ≠ (providerContextValue 1 "dark").objectId
    ∧ currentThemeStyle { theme := "dark", toggleId := 0, objectId := 0 }
        = currentThemeStyle { theme := "dark", toggleId := 5, objectId := 7 }
    ∧ clickToggle { theme := "dark", toggleId := 0, objectId := 0 }
        = clickToggle { theme := "dark", toggleId := 5, objectId := 7 } :=
  contextValue_churn_tolerated 0 1 "light" "dark" (by decide)
    { theme := "dark", toggleId := 0, objectId := 0 }
    { theme := "dark", toggleId := 5, objectId := 7 } rfl

/-- Counterexample for C8 as stated: on an entry file that DOES contain the
recognized pattern the script performs a full overwrite — the final App.jsx
is exactly the fixed heredoc and the original content (witnessed by its
marker) is gone — so the full overwrite is not reserved for the case where
the pattern is absent, and no splice into the existing file survives. -/
theorem scaffold_overwrites_on_match :
    appRecognized sampleMatchingApp = true
    ∧ (runScript (some sampleMatchingApp)).appFile = some appOverwriteBytes
    ∧ bytesInfixOf markerBytes sampleMatchingApp = true
    ∧ bytesInfixOf markerBytes appOverwriteBytes = false := by
  exact ⟨by decide, by decide, by decide, by decide⟩

/-- C8 (amended): a run always writes the two fixed artifacts (the context
file and the component file) from the heredocs; when the entry file contains
a recognized pattern the script inserts import lines and then fully
overwrites the entry file, leaving it with the fixed heredoc content; when
no pattern is recognized the entry file keeps its prior content and the
warning is printed. -/
theorem scaffold_final_state (content : List Nat) :
    (runScript (some content)).contextFile = ctxHeredocBytes
    ∧ (runScript (some content)).componentFile = compHeredocBytes
    ∧ (appRecognized content = true →
        (runScript (some content)).appFile = some appOverwriteBytes
        ∧ (runScript (some content)).warned = false)
    ∧ (appRecognized content = false →
        (runScript (some content)).appFile = some content
        ∧ (runScript (some content)).warned = true) := by
  refine ⟨?_, ?_, ?_, ?_⟩
  · by_cases h : appRecognized content <;> simp [runScript, h]
  · by_cases h : appRecognized content <;> simp [runScript, h]
  · intro h; simp [runScript, h]
  · intro h; simp [runScript, h]

/-- Concrete run for C8 (amended): on the recognized sample the context file
gets the heredoc bytes, the entry file ends up fully overwritten with the
fixed content, and no warning is printed. -/
theorem scaffold_final_state_witness :
    (runScript (some sampleMatchingApp)).contextFile = ctxHeredocBytes
    ∧ (runScript (some sampleMatchingApp)).appFile = some appOverwriteBytes
    ∧ (runScript (some sampleMatchingApp)).warned = false :=
  ⟨(scaffold_final_state sampleMatchingApp).1,
   ((scaffold_final_state sampleMatchingApp).2.2.1 (by decide)).1,
   ((scaffold_final_state sampleMatchingApp).2.2.1 (by decide)).2⟩

/-- C9: when the entry file does not contain `function App()` or
`const App =`, the script prints the warning and the entry file keeps its
prior content byte for byte (no write to it occurs), while the other two
artifacts are still written. -/
theorem scaffold_warning_leaves_entry (content : List Nat)
    (h : appRecognized content = false) :
    (runScript (some content)).appFile = some content
    ∧ (runScript (some content)).warned = true
    ∧ (runScript (some content)).contextFile = ctxHeredocBytes
    ∧ (runScript (some content)).componentFile = compHeredocBytes := by
  simp [runScript, h]

/-- Concrete run for C9: a sample entry file without the recognized pattern
is left untouched and the warning is printed. -/
theorem scaffold_warning_witness :
    appRecognized sampleUnmatchedApp = false
    ∧ (runScript (some sampleUnmatchedApp)).appFile = some sampleUnmatchedApp
    ∧ (runScript (some sampleUnmatchedApp)).warned = true :=
  ⟨by decide,
   (scaffold_warning_leaves_entry sampleUnmatchedApp (by decide)).1,
   (scaffold_warning_leaves_entry sampleUnmatchedApp (by decide)).2.1⟩

/-- Counterexample for C10 as stated: the heredoc output for the context
file is not byte for byte the checked-in context/ThemeContext.jsx — the
heredoc emits 868 bytes, the checked-in file has 867 (it lacks a final
newline). -/
theorem ctx_heredoc_not_byte_identical :
    ctxHeredocBytes ≠ ctxFileBytes := by
  decide

/-- C10 (amended): the two ThemeProvider implementations compute the same
mode transition and both start at the mode light; the script's heredoc for
the component file reproduces the checked-in components/ThemeToggle.jsx
byte for byte; and the heredoc for the context file reproduces the
checked-in context/ThemeContext.jsx up to exactly one extra trailing
newline byte emitted by the heredoc. -/
theorem providers_agree_and_heredocs_near (t : String) :
    toggleTheme t = toggleThemeCtx t
    ∧ initialTheme = "light"
    ∧ initialThemeCtx = "light"
    ∧ compHeredocBytes = compFileBytes
    ∧ ctxHeredocBytes = ctxFileBytes ++ [10] := by
  exact ⟨rfl, rfl, rfl, by decide, by decide⟩
